import Mathlib

/-
Verification of the FRED economic dashboard's data pipeline
(src/app.py and src/logger_config.py) against its specification.

Modelling conventions:
* Numeric observation values are modelled as exact rationals (ℚ).
* A pandas DataFrame holding the shaped series is modelled as a list of
  rows in stored (chronological) order, each row carrying the derived
  quarter label and the numeric value.
* Python code that can raise is modelled with `Except`; a `try/except`
  block is modelled by matching on the `Except` result of the body.
* The scalars of the `Value` column are pandas/numpy float64 values.
  Dividing such a scalar by zero raises no exception under numpy's
  default error state: it emits a RuntimeWarning and yields an IEEE
  special value (a signed infinity, or NaN for 0/0). The `PyFloat`
  type models this result domain; finite values are exact rationals.
* External pandas reductions (`min`, `max`, `mean`, `idxmin`, `idxmax`)
  are modelled by their documented contracts: `min`/`max` are the list
  minimum/maximum, `mean` is sum over length, and `idxmin`/`idxmax`
  return the index of the first occurrence of the extremum.
-/

namespace FredDashboard

/-- One row of the shaped series DataFrame: the derived calendar-quarter
label (column `Quarter`) and the numeric value (column `Value`),
in stored chronological order. -/
structure Row where
  quarter : String
  value : ℚ
deriving DecidableEq

instance : Inhabited Row := ⟨⟨"", 0⟩⟩

/-- The dictionary returned by `get_economic_data` in src/app.py
(lines 58-62): the shaped DataFrame plus title and units. -/
structure DataDict where
  data : List Row
  title : String
  units : String
deriving DecidableEq

/-- The `Value` column of the shaped DataFrame. -/
def values (rows : List Row) : List ℚ := rows.map Row.value

/-- A timestamp as far as the shaping needs it: year and month (1-12). -/
structure PyDate where
  year : Int
  month : Nat
deriving DecidableEq

/-- pandas `Timestamp.to_period('Q').astype(str)`: the calendar-quarter
label, e.g. `2024Q1` (src/app.py line 55). -/
def toQuarterLabel (d : PyDate) : String :=
  toString d.year ++ "Q" ++ toString ((d.month - 1) / 3 + 1)

/-- Result of the provider call `fred.get_series` (src/app.py line 43):
either a raw (date, value) series or a raised provider error. -/
inductive FetchResult where
  | ok (series : List (PyDate × ℚ))
  | err (msg : String)
deriving DecidableEq

/-- src/app.py lines 33-66, `get_economic_data`: on a raised provider
error the except branch returns `None`; on an empty series it returns
`None` (lines 45-47); otherwise it shapes the series into a DataFrame
with a derived `Quarter` column and returns the dictionary. -/
def get_economic_data (fetch : FetchResult) (title units : String) : Option DataDict :=
  match fetch with
  | .err _ => none
  | .ok series =>
    if series.isEmpty then none
    else some { data := series.map (fun p => ⟨toQuarterLabel p.1, p.2⟩)
                title := title
                units := units }

/-- An IEEE-754 double as the percent-change arithmetic observes it: a
finite value carried exactly as a rational, a signed infinity, or NaN. -/
inductive PyFloat where
  | finite (q : ℚ)
  | inf
  | negInf
  | nan
deriving DecidableEq

/-- numpy float64 scalar division of two finite operands: a zero
divisor yields a signed infinity (NaN for 0/0) with only a
RuntimeWarning — no exception is raised. -/
def npDiv (a b : ℚ) : PyFloat :=
  if b = 0 then
    if 0 < a then .inf else if a < 0 then .negInf else .nan
  else .finite (a / b)

/-- Multiplication by the finite positive constant 100 on the IEEE
result domain. -/
def npMul100 : PyFloat → PyFloat
  | .finite q => .finite (q * 100)
  | .inf => .inf
  | .negInf => .negInf
  | .nan => .nan

/-- src/app.py lines 126-138, `calculate_change`: with at least 2 rows
it divides (newest - oldest) by the oldest value and multiplies by 100,
otherwise it returns `None`. The operands are numpy float64 scalars
(`df['Value'].iloc[...]`), so a zero oldest value yields an IEEE
special value and never raises: the surrounding `try/except` (whose
handler would return `None`) is unreachable from this arithmetic and
the result — infinite or not — is returned to the caller. -/
def calculate_change (rows : List Row) : Option PyFloat :=
  if 2 ≤ rows.length then
    let oldest := (values rows).headI
    let newest := (values rows).getLastI
    some (npMul100 (npDiv (newest - oldest) oldest))
  else none

/-- pandas `Series.min` over the `Value` column (src/app.py line 267). -/
def seriesMin : List ℚ → ℚ
  | [] => 0
  | x :: xs => xs.foldl min x

/-- pandas `Series.max` over the `Value` column (src/app.py line 273). -/
def seriesMax : List ℚ → ℚ
  | [] => 0
  | x :: xs => xs.foldl max x

/-- pandas `Series.mean` over the `Value` column (src/app.py line 278). -/
def seriesMean (l : List ℚ) : ℚ := l.sum / l.length

/-- pandas `Series.idxmin` (src/app.py line 268): the index of the
first occurrence of the minimum. -/
def idxmin (l : List ℚ) : Nat := l.findIdx (fun x => x = seriesMin l)

/-- pandas `Series.idxmax` (src/app.py line 274): the index of the
first occurrence of the maximum. -/
def idxmax (l : List ℚ) : Nat := l.findIdx (fun x => x = seriesMax l)

/-- The key statistics the main page derives from the shaped series
(src/app.py lines 250-278). -/
structure KeyStats where
  latestValue : ℚ
  latestQuarter : String
  pctChange : Option PyFloat
  minValue : ℚ
  minQuarter : String
  maxValue : ℚ
  maxQuarter : String
  meanValue : ℚ
deriving DecidableEq

/-- src/app.py lines 250-278: latest value and quarter come from
`iloc[-1]`, the percent change from `calculate_change`, min/max from
`Series.min`/`Series.max` with their quarters looked up at
`idxmin`/`idxmax`, and the average from `Series.mean`. -/
def keyStats (d : DataDict) : KeyStats :=
  let vals := values d.data
  let quarters := d.data.map Row.quarter
  { latestValue := vals.getLastI
    latestQuarter := quarters.getLastI
    pctChange := calculate_change d.data
    minValue := seriesMin vals
    minQuarter := quarters.getD (idxmin vals) ""
    maxValue := seriesMax vals
    maxQuarter := quarters.getD (idxmax vals) ""
    meanValue := seriesMean vals }

/-- A plotly figure as far as the dashboard configures it: the trace
kind, the data columns, the title, the `labels` relabelling dict passed
to plotly express (absent entries are `none`), the `markers` option,
the discrete colour sequence, and the layout fields that
`fig.update_layout` sets (src/app.py lines 68-120). -/
structure Fig where
  kind : String
  x : String
  y : String
  title : String
  valueLabel : Option String
  quarterLabel : Option String
  markers : Bool
  colorSeq : Option String
  xaxisTitle : String
  yaxisTitle : String
  template : String
  height : Nat
deriving DecidableEq

/-- The chart title used by every branch of `create_chart`:
`f"{title} - Last {len(df)} Quarters"`. -/
def chartTitle (d : DataDict) : String :=
  d.title ++ " - Last " ++ toString d.data.length ++ " Quarters"

/-- The axis label used by every branch: `f"{title} ({units})"`. -/
def axisLabel (d : DataDict) : String :=
  d.title ++ " (" ++ d.units ++ ")"

/-- src/app.py lines 113-118, `fig.update_layout`: applied to the
figure of every branch, it clears the x-axis title, sets the y-axis
title to the axis label, and fixes the template and height. -/
def updateLayout (d : DataDict) (f : Fig) : Fig :=
  { f with xaxisTitle := ""
           yaxisTitle := axisLabel d
           template := "plotly_white"
           height := 500 }

/-- src/app.py lines 68-124, `create_chart`: four branches on the
chart-type string (Line, Bar, Area, and a default falling back to a
plain line), each building a plotly-express figure, then the common
`update_layout`. Before the layout update the axis titles are the ones
the `labels` dict induces and template/height are the plotly defaults. -/
def create_chart (d : DataDict) (chartType : String) : Fig :=
  let base : Fig :=
    if chartType = "Line" then
      { kind := "line", x := "Quarter", y := "Value"
        title := chartTitle d
        valueLabel := some (axisLabel d), quarterLabel := some ""
        markers := true, colorSeq := none
        xaxisTitle := "", yaxisTitle := axisLabel d
        template := "plotly", height := 450 }
    else if chartType = "Bar" then
      { kind := "bar", x := "Quarter", y := "Value"
        title := chartTitle d
        valueLabel := some (axisLabel d), quarterLabel := some ""
        markers := false, colorSeq := some "#1E88E5"
        xaxisTitle := "", yaxisTitle := axisLabel d
        template := "plotly", height := 450 }
    else if chartType = "Area" then
      { kind := "area", x := "Quarter", y := "Value"
        title := chartTitle d
        valueLabel := some (axisLabel d), quarterLabel := some ""
        markers := false, colorSeq := some "#1E88E5"
        xaxisTitle := "", yaxisTitle := axisLabel d
        template := "plotly", height := 450 }
    else
      { kind := "line", x := "Quarter", y := "Value"
        title := chartTitle d
        valueLabel := some (axisLabel d), quarterLabel := some ""
        markers := false, colorSeq := none
        xaxisTitle := "", yaxisTitle := axisLabel d
        template := "plotly", height := 450 }
  updateLayout d base

/-- The fixed indicator catalog of src/app.py lines 164-193:
display name, provider series identifier, unit label. -/
def indicators : List (String × String × String) :=
  [("Gross Domestic Product (GDP)", "GDP", "Billions of Dollars"),
   ("Real GDP", "GDPC1", "Billions of Chained 2017 Dollars"),
   ("GDP Growth Rate", "A191RL1Q225SBEA", "Percent Change from Preceding Period"),
   ("Personal Consumption Expenditures", "PCE", "Billions of Dollars"),
   ("Unemployment Rate", "UNRATE", "Percent"),
   ("Consumer Price Index (CPI)", "CPIAUCSL", "Index 1982-1984=100"),
   ("Federal Funds Rate", "FEDFUNDS", "Percent")]

/-- Dictionary access `indicators[selected_indicator]`
(src/app.py line 217). -/
def lookupIndicator (name : String) : Option (String × String) :=
  (indicators.find? (fun t => t.1 = name)).map (fun t => t.2)

/-- The user-visible result of one interaction of `main`. -/
inductive Outcome where
  | rendered (fig : Fig) (stats : KeyStats)
  | noData (msg : String)
  | configError (msg : String)
  | appError (msg : String)
deriving DecidableEq

/-- Outcome of a run of `main`, together with whether the run reached
the data-provider call inside `get_economic_data`. -/
structure MainResult where
  outcome : Outcome
  fetchAttempted : Bool
deriving DecidableEq

/-- src/app.py lines 19-31, `initialize_fred`: a missing or falsy
(empty) API key is reported and yields no client; otherwise the client
carries the key. -/
def initialize_fred (apiKey : Option String) : Option String :=
  match apiKey with
  | none => none
  | some k => if k.isEmpty then none else some k

/-- The no-data message of src/app.py line 294. -/
def noDataMessage (selected : String) : String :=
  "No data available for " ++ selected ++ ". Please try another indicator."

/-- src/app.py lines 140-303, `main`, restricted to the pipeline: if
`initialize_fred` yields no client the run stops with the configuration
error and no fetch happens (lines 154-156); otherwise the selected
indicator is looked up, `get_economic_data` is called, and either a
chart plus key statistics are rendered (when a dictionary with a
non-empty table came back, line 229) or the no-data error is shown
(lines 293-294). A selection outside the catalog would raise a KeyError
caught by the outer handler (lines 301-303). -/
def main (apiKey : Option String) (selected chartType : String)
    (providerFetch : String → FetchResult) : MainResult :=
  match initialize_fred apiKey with
  | none => { outcome := .configError "FRED API key not found. Please check your .env file."
              fetchAttempted := false }
  | some _ =>
    match lookupIndicator selected with
    | none => { outcome := .appError ("An error occurred: " ++ selected)
                fetchAttempted := false }
    | some (seriesId, units) =>
      match get_economic_data (providerFetch seriesId) selected units with
      | some d =>
        if d.data.isEmpty then
          { outcome := .noData (noDataMessage selected), fetchAttempted := true }
        else
          { outcome := .rendered (create_chart d chartType) (keyStats d)
            fetchAttempted := true }
      | none => { outcome := .noData (noDataMessage selected), fetchAttempted := true }

/-- Numeric level of `logging.DEBUG`. -/
def DEBUG : Nat := 10

/-- Numeric level of `logging.INFO`. -/
def INFO : Nat := 20

/-- The logging configuration `setup_logging` builds
(src/logger_config.py lines 6-47): logger level, per-handler levels,
size-rotation parameters of the file handler, and the date-stamped
log-file path. -/
structure LogConfig where
  loggerLevel : Nat
  consoleLevel : Nat
  fileLevel : Nat
  maxBytes : Nat
  backupCount : Nat
  logFile : String
deriving DecidableEq

/-- src/logger_config.py, `setup_logging`: logger at DEBUG, console
handler at INFO, `RotatingFileHandler` at DEBUG with 10MB per file and
5 backups, writing to `logs/app_{current_date}.log`. -/
def setup_logging (currentDate : String) : LogConfig :=
  { loggerLevel := DEBUG
    consoleLevel := INFO
    fileLevel := DEBUG
    maxBytes := 10 * 1024 * 1024
    backupCount := 5
    logFile := "logs/app_" ++ currentDate ++ ".log" }

/-- Python logging dispatch: a record reaches a handler exactly when
its level passes the logger's level and the handler's level. -/
def handlerEmits (loggerLevel handlerLevel msgLevel : Nat) : Bool :=
  decide (loggerLevel ≤ msgLevel) && decide (handlerLevel ≤ msgLevel)

/-- A record of the given level is written to the console. -/
def consoleEmits (cfg : LogConfig) (msgLevel : Nat) : Bool :=
  handlerEmits cfg.loggerLevel cfg.consoleLevel msgLevel

/-- A record of the given level is written to the log file. -/
def fileEmits (cfg : LogConfig) (msgLevel : Nat) : Bool :=
  handlerEmits cfg.loggerLevel cfg.fileLevel msgLevel

/-- The percent-change formula exactly as the specification writes it,
`(rows[-1].value - rows[0].value) / rows[0].value * 100`, read with
total rational division (to be compared with `calculate_change`). -/
def specPctChange (rows : List Row) : ℚ :=
  ((values rows).getLastI - (values rows).headI) / (values rows).headI * 100

/-- The 8-point unemployment-rate series of the specification's
scenario, in chronological order. -/
def unrateRows : List Row :=
  [⟨"2022Q1", 3.5⟩, ⟨"2022Q2", 3.6⟩, ⟨"2022Q3", 3.7⟩, ⟨"2022Q4", 3.9⟩,
   ⟨"2023Q1", 4.0⟩, ⟨"2023Q2", 3.8⟩, ⟨"2023Q3", 3.7⟩, ⟨"2023Q4", 3.6⟩]

end FredDashboard

namespace FredDashboard

/-- C1 counterexample: the percent-change computation does not return
the spec's formula on every series with at least 2 rows — when the
oldest value is 0 the numpy float64 division yields infinity, so the
result is the IEEE infinity, not the formula's (finite) value. -/
theorem calculate_change_zero_first_no_value :
    2 ≤ ([⟨"2024Q1", 0⟩, ⟨"2024Q2", 1⟩] : List Row).length ∧
    calculate_change [⟨"2024Q1", 0⟩, ⟨"2024Q2", 1⟩] = some PyFloat.inf ∧
    calculate_change [⟨"2024Q1", 0⟩, ⟨"2024Q2", 1⟩] ≠
      some (.finite (specPctChange [⟨"2024Q1", 0⟩, ⟨"2024Q2", 1⟩])) := by
  have hc : calculate_change [⟨"2024Q1", 0⟩, ⟨"2024Q2", 1⟩] = some PyFloat.inf := by
    norm_num [calculate_change, values, npDiv, npMul100, List.getLastI, List.headI]
  refine ⟨by norm_num, hc, ?_⟩
  rw [hc]
  intro h
  simp at h

/-- C1 (amended): for every series with at least 2 rows whose oldest
value is nonzero, `calculate_change` returns exactly the finite value
`(last value - first value) / first value * 100`. -/
theorem calculate_change_eq_spec_formula (rows : List Row)
    (h2 : 2 ≤ rows.length) (h0 : (values rows).headI ≠ 0) :
    calculate_change rows = some (.finite (specPctChange rows)) := by
  simp only [calculate_change, npDiv, npMul100, specPctChange,
    if_pos h2, if_neg h0]

/-- Witness for C1's amended theorem at a concrete 2-row series. -/
theorem calculate_change_eq_spec_formula_witness :
    2 ≤ ([⟨"2024Q1", 1⟩, ⟨"2024Q2", 3⟩] : List Row).length ∧
    calculate_change [⟨"2024Q1", 1⟩, ⟨"2024Q2", 3⟩] =
      some (.finite (specPctChange [⟨"2024Q1", 1⟩, ⟨"2024Q2", 3⟩])) :=
  ⟨by decide, calculate_change_eq_spec_formula _ (by decide) (by decide)⟩

/-- C2 counterexample: with oldest value 0 no divide-by-zero fault is
signalled at all — the numpy float64 division yields infinity and the
computation returns that infinity to the caller as an ordinary value
(in particular not a null/absent result). -/
theorem calculate_change_fault_caught :
    calculate_change [⟨"2020Q1", 0⟩, ⟨"2020Q2", 5⟩] = some PyFloat.inf ∧
    calculate_change [⟨"2020Q1", 0⟩, ⟨"2020Q2", 5⟩] ≠ none := by
  have hc : calculate_change [⟨"2020Q1", 0⟩, ⟨"2020Q2", 5⟩] = some PyFloat.inf := by
    norm_num [calculate_change, values, npDiv, npMul100, List.getLastI, List.headI]
  exact ⟨hc, by rw [hc]; simp⟩

/-- C2 (amended): for every series with at least 2 rows whose oldest
value is exactly 0, the division is performed unguarded on numpy
float64 operands, so no fault is raised: it yields the IEEE special
value (positive or negative infinity by the sign of the newest value,
NaN for 0/0), which is returned to the caller — neither a fault nor a
null result. -/
theorem calculate_change_zero_oldest (rows : List Row)
    (h2 : 2 ≤ rows.length) (h0 : (values rows).headI = 0) :
    calculate_change rows =
      some (if 0 < (values rows).getLastI then PyFloat.inf
            else if (values rows).getLastI < 0 then PyFloat.negInf
            else PyFloat.nan) := by
  simp only [calculate_change, if_pos h2]
  rw [h0, sub_zero, npDiv, if_pos rfl]
  rcases lt_trichotomy (0 : ℚ) ((values rows).getLastI) with hpos | hzero | hneg
  · rw [if_pos hpos]
    rfl
  · rw [if_neg (hzero ▸ lt_irrefl 0), if_neg (hzero ▸ lt_irrefl 0)]
    rfl
  · rw [if_neg (asymm hneg), if_pos hneg]
    rfl

/-- Witness for C2's amended theorem at a concrete 2-row series. -/
theorem calculate_change_zero_oldest_witness :
    (2 ≤ ([⟨"2020Q3", 0⟩, ⟨"2020Q4", 2⟩] : List Row).length ∧
     (values [⟨"2020Q3", 0⟩, ⟨"2020Q4", 2⟩]).headI = 0) ∧
    calculate_change [⟨"2020Q3", 0⟩, ⟨"2020Q4", 2⟩] =
      some (if 0 < (values [⟨"2020Q3", 0⟩, ⟨"2020Q4", 2⟩]).getLastI then PyFloat.inf
            else if (values [⟨"2020Q3", 0⟩, ⟨"2020Q4", 2⟩]).getLastI < 0 then PyFloat.negInf
            else PyFloat.nan) :=
  ⟨⟨by decide, by decide⟩, calculate_change_zero_oldest _ (by decide) (by decide)⟩

/-- C3: on a series of exactly one row the percent change is `None`
and minimum, maximum and latest all equal that row's value. -/
theorem single_row_stats (r : Row) (t u : String) :
    (keyStats ⟨[r], t, u⟩).pctChange = none ∧
    (keyStats ⟨[r], t, u⟩).minValue = r.value ∧
    (keyStats ⟨[r], t, u⟩).maxValue = r.value ∧
    (keyStats ⟨[r], t, u⟩).latestValue = r.value :=
  ⟨rfl, rfl, rfl, rfl⟩

/-- C5: with no API key configured, `main` stops immediately with the
configuration error and the data provider is never called. -/
theorem missing_key_no_fetch (selected chartType : String)
    (providerFetch : String → FetchResult) :
    main none selected chartType providerFetch =
      { outcome := .configError "FRED API key not found. Please check your .env file."
        fetchAttempted := false } := rfl

/-- C9: the logging configuration sends info-and-above records to the
console and debug-and-above records to the date-stamped file, which is
size-rotated at 10MB with 5 backups. -/
theorem setup_logging_spec (d : String) (lvl : Nat) :
    (consoleEmits (setup_logging d) lvl = true ↔ INFO ≤ lvl) ∧
    (fileEmits (setup_logging d) lvl = true ↔ DEBUG ≤ lvl) ∧
    (setup_logging d).maxBytes = 10 * 1024 * 1024 ∧
    (setup_logging d).backupCount = 5 ∧
    (setup_logging d).logFile = "logs/app_" ++ d ++ ".log" := by
  refine ⟨?_, ?_, rfl, rfl, rfl⟩
  · simp only [consoleEmits, handlerEmits, setup_logging, INFO, DEBUG,
      Bool.and_eq_true, decide_eq_true_eq]
    omega
  · simp only [fileEmits, handlerEmits, setup_logging, INFO, DEBUG,
      Bool.and_eq_true, decide_eq_true_eq]
    omega

/-- C10: whenever `get_economic_data` returns a dictionary, its data
table is non-empty. -/
theorem get_economic_data_nonempty (fetch : FetchResult) (t u : String)
    (d : DataDict) (h : get_economic_data fetch t u = some d) :
    d.data ≠ [] := by
  cases fetch with
  | err m => simp [get_economic_data] at h
  | ok series =>
    by_cases hs : series.isEmpty
    · simp [get_economic_data, hs] at h
    · simp only [get_economic_data, hs, if_neg, Bool.false_eq_true,
        if_false, Option.some.injEq] at h
      subst h
      simp [List.isEmpty_iff] at hs
      simpa [List.map_eq_nil_iff] using hs

/-- Witness for C10 at a concrete 1-point fetch result. -/
theorem get_economic_data_nonempty_witness :
    get_economic_data (.ok [(⟨2024, 1⟩, 3)]) "T" "U" =
      some ({ data := [⟨"2024Q1", 3⟩], title := "T", units := "U" } : DataDict) ∧
    ({ data := [⟨"2024Q1", 3⟩], title := "T", units := "U" } : DataDict).data ≠ [] :=
  ⟨by rfl,
   get_economic_data_nonempty (.ok [(⟨2024, 1⟩, 3)]) "T" "U"
     { data := [⟨"2024Q1", 3⟩], title := "T", units := "U" } (by rfl)⟩

set_option maxRecDepth 10000 in
/-- C4 counterexample: on an empty fetch for the Unemployment Rate
indicator (provider identifier UNRATE), the no-data outcome's message
names the display title, and does not contain
`No data available for UNRATE` as the claim's identifier-based message
would require. -/
theorem noData_message_uses_title_not_identifier :
    (main (some "key") "Unemployment Rate" "Line" (fun _ => .ok [])).outcome =
      .noData "No data available for Unemployment Rate. Please try another indicator." ∧
    lookupIndicator "Unemployment Rate" = some ("UNRATE", "Percent") ∧
    ¬ ("No data available for UNRATE").toList <:+:
      ("No data available for Unemployment Rate. Please try another indicator.").toList := by
  refine ⟨by decide, by decide, by decide⟩

/-- C4 (amended): whenever the provider returns an empty series for the
selected indicator's identifier, the pipeline yields the no-data
outcome with the message naming the indicator's display title
(`No data available for {title}. Please try another indicator.`), the
fetch having been attempted, and never a rendered chart. -/
theorem empty_series_no_data_outcome (key selected chartType sid units : String)
    (providerFetch : String → FetchResult)
    (hkey : key.isEmpty = false)
    (hsel : lookupIndicator selected = some (sid, units))
    (hfetch : providerFetch sid = .ok []) :
    main (some key) selected chartType providerFetch =
      { outcome := .noData (noDataMessage selected), fetchAttempted := true } ∧
    ∀ fig stats,
      (main (some key) selected chartType providerFetch).outcome ≠
        .rendered fig stats := by
  have h1 : main (some key) selected chartType providerFetch =
      { outcome := .noData (noDataMessage selected), fetchAttempted := true } := by
    simp [main, initialize_fred, hkey, hsel, hfetch, get_economic_data]
  refine ⟨h1, ?_⟩
  rw [h1]
  intro fig stats hc
  exact Outcome.noConfusion hc

/-- Witness for C4's amended theorem: empty fetch for the Unemployment
Rate selection. -/
theorem empty_series_no_data_outcome_witness :
    ("key".isEmpty = false ∧
     lookupIndicator "Unemployment Rate" = some ("UNRATE", "Percent") ∧
     (fun _ : String => FetchResult.ok []) "UNRATE" = .ok []) ∧
    main (some "key") "Unemployment Rate" "Bar" (fun _ => .ok []) =
      { outcome := .noData (noDataMessage "Unemployment Rate")
        fetchAttempted := true } :=
  ⟨⟨rfl, rfl, rfl⟩,
   (empty_series_no_data_outcome "key" "Unemployment Rate" "Bar" "UNRATE" "Percent"
     (fun _ => .ok []) rfl rfl rfl).1⟩

/-- C7 counterexample: for the unrecognized chart type `Scatter` the
fallback figure is a line chart, but it does not omit the y-axis
label — both its `labels` entry for the value column and its final
y-axis title are present and identical to the explicit Line path's. -/
theorem default_chart_keeps_label :
    ("Scatter" ≠ "Line" ∧ "Scatter" ≠ "Bar" ∧ "Scatter" ≠ "Area") ∧
    (create_chart { data := [⟨"2024Q1", 1⟩], title := "T", units := "U" } "Scatter").kind
      = "line" ∧
    (create_chart { data := [⟨"2024Q1", 1⟩], title := "T", units := "U" } "Scatter").valueLabel
      = some "T (U)" ∧
    (create_chart { data := [⟨"2024Q1", 1⟩], title := "T", units := "U" } "Scatter").valueLabel
      = (create_chart { data := [⟨"2024Q1", 1⟩], title := "T", units := "U" } "Line").valueLabel ∧
    (create_chart { data := [⟨"2024Q1", 1⟩], title := "T", units := "U" } "Scatter").yaxisTitle
      = (create_chart { data := [⟨"2024Q1", 1⟩], title := "T", units := "U" } "Line").yaxisTitle := by
  exact ⟨⟨by decide, by decide, by decide⟩, rfl, rfl, rfl, rfl⟩

/-- C7 (amended): for every chart-type string outside
{Line, Bar, Area}, chart construction falls back to a figure identical
to the explicit Line path's except that the `markers` option is off;
in particular the y-axis labelling is the same, not omitted. -/
theorem default_chart_is_line_without_markers (d : DataDict) (ct : String)
    (h1 : ct ≠ "Line") (h2 : ct ≠ "Bar") (h3 : ct ≠ "Area") :
    create_chart d ct = { create_chart d "Line" with markers := false } := by
  simp [create_chart, updateLayout, h1, h2, h3]

/-- Witness for C7's amended theorem at the chart type `Pie`. -/
theorem default_chart_is_line_without_markers_witness :
    ("Pie" ≠ "Line" ∧ "Pie" ≠ "Bar" ∧ "Pie" ≠ "Area") ∧
    create_chart { data := [⟨"2023Q2", 7⟩], title := "GDP", units := "B$" } "Pie" =
      { create_chart { data := [⟨"2023Q2", 7⟩], title := "GDP", units := "B$" } "Line"
        with markers := false } :=
  ⟨⟨by decide, by decide, by decide⟩,
   default_chart_is_line_without_markers _ "Pie" (by decide) (by decide) (by decide)⟩

theorem values_length (rows : List Row) : (values rows).length = rows.length := by
  simp [values]

theorem values_getLastI (rows : List Row) (h : rows ≠ []) :
    (values rows).getLastI = (rows.getLast h).value := by
  rw [List.getLastI_eq_getLast?, values, List.getLast?_map,
    List.getLast?_eq_getLast_of_ne_nil h]
  rfl

theorem foldl_min_le_init (xs : List ℚ) (a : ℚ) : xs.foldl min a ≤ a := by
  induction xs generalizing a with
  | nil => simp
  | cons x xs ih =>
    simp only [List.foldl_cons]
    exact le_trans (ih (min a x)) (min_le_left a x)

theorem foldl_min_le_of_mem (xs : List ℚ) (a x : ℚ) (hx : x ∈ xs) :
    xs.foldl min a ≤ x := by
  induction xs generalizing a with
  | nil => cases hx
  | cons y ys ih =>
    simp only [List.foldl_cons]
    rcases List.mem_cons.mp hx with rfl | h
    · exact le_trans (foldl_min_le_init ys (min a x)) (min_le_right a x)
    · exact ih (min a y) h

theorem foldl_min_eq_init_or_mem (xs : List ℚ) (a : ℚ) :
    xs.foldl min a = a ∨ xs.foldl min a ∈ xs := by
  induction xs generalizing a with
  | nil => exact Or.inl rfl
  | cons x xs ih =>
    simp only [List.foldl_cons]
    rcases ih (min a x) with h | h
    · rcases le_total a x with hax | hxa
      · rw [h, min_eq_left hax]
        exact Or.inl rfl
      · rw [h, min_eq_right hxa]
        exact Or.inr (List.mem_cons_self x xs)
    · exact Or.inr (List.mem_cons_of_mem x h)

theorem seriesMin_le_of_mem (l : List ℚ) (x : ℚ) (hx : x ∈ l) :
    seriesMin l ≤ x := by
  cases l with
  | nil => cases hx
  | cons y ys =>
    rcases List.mem_cons.mp hx with rfl | h
    · exact foldl_min_le_init ys x
    · exact foldl_min_le_of_mem ys y x h

theorem seriesMin_mem (l : List ℚ) (h : l ≠ []) : seriesMin l ∈ l := by
  cases l with
  | nil => exact absurd rfl h
  | cons y ys =>
    show ys.foldl min y ∈ y :: ys
    rcases foldl_min_eq_init_or_mem ys y with h1 | h1
    · rw [h1]
      exact List.mem_cons_self y ys
    · exact List.mem_cons_of_mem y h1

theorem foldl_max_init_le (xs : List ℚ) (a : ℚ) : a ≤ xs.foldl max a := by
  induction xs generalizing a with
  | nil => simp
  | cons x xs ih =>
    simp only [List.foldl_cons]
    exact le_trans (le_max_left a x) (ih (max a x))

theorem foldl_max_mem_le (xs : List ℚ) (a x : ℚ) (hx : x ∈ xs) :
    x ≤ xs.foldl max a := by
  induction xs generalizing a with
  | nil => cases hx
  | cons y ys ih =>
    simp only [List.foldl_cons]
    rcases List.mem_cons.mp hx with rfl | h
    · exact le_trans (le_max_right a x) (foldl_max_init_le ys (max a x))
    · exact ih (max a y) h

theorem foldl_max_eq_init_or_mem (xs : List ℚ) (a : ℚ) :
    xs.foldl max a = a ∨ xs.foldl max a ∈ xs := by
  induction xs generalizing a with
  | nil => exact Or.inl rfl
  | cons x xs ih =>
    simp only [List.foldl_cons]
    rcases ih (max a x) with h | h
    · rcases le_total a x with hax | hxa
      · rw [h, max_eq_right hax]
        exact Or.inr (List.mem_cons_self x xs)
      · rw [h, max_eq_left hxa]
        exact Or.inl rfl
    · exact Or.inr (List.mem_cons_of_mem x h)

theorem seriesMax_ge_of_mem (l : List ℚ) (x : ℚ) (hx : x ∈ l) :
    x ≤ seriesMax l := by
  cases l with
  | nil => cases hx
  | cons y ys =>
    rcases List.mem_cons.mp hx with rfl | h
    · exact foldl_max_init_le ys x
    · exact foldl_max_mem_le ys y x h

theorem seriesMax_mem (l : List ℚ) (h : l ≠ []) : seriesMax l ∈ l := by
  cases l with
  | nil => exact absurd rfl h
  | cons y ys =>
    show ys.foldl max y ∈ y :: ys
    rcases foldl_max_eq_init_or_mem ys y with h1 | h1
    · rw [h1]
      exact List.mem_cons_self y ys
    · exact List.mem_cons_of_mem y h1

theorem idxmin_lt_length (l : List ℚ) (h : l ≠ []) : idxmin l < l.length :=
  List.findIdx_lt_length_of_exists ⟨seriesMin l, seriesMin_mem l h, by simp⟩

theorem idxmax_lt_length (l : List ℚ) (h : l ≠ []) : idxmax l < l.length :=
  List.findIdx_lt_length_of_exists ⟨seriesMax l, seriesMax_mem l h, by simp⟩

theorem idxmin_spec (l : List ℚ) (h : l ≠ []) :
    l.get ⟨idxmin l, idxmin_lt_length l h⟩ = seriesMin l ∧
    ∀ j : Fin l.length, j.1 < idxmin l → l.get j ≠ seriesMin l := by
  constructor
  · have hw := List.findIdx_getElem (w := idxmin_lt_length l h)
    simpa [idxmin, List.get_eq_getElem] using hw
  · intro j hj hcontra
    have hfalse := List.not_of_lt_findIdx (p := fun x => x = seriesMin l) hj
    rw [List.get_eq_getElem] at hcontra
    simp [hcontra] at hfalse

theorem idxmax_spec (l : List ℚ) (h : l ≠ []) :
    l.get ⟨idxmax l, idxmax_lt_length l h⟩ = seriesMax l ∧
    ∀ j : Fin l.length, j.1 < idxmax l → l.get j ≠ seriesMax l := by
  constructor
  · have hw := List.findIdx_getElem (w := idxmax_lt_length l h)
    simpa [idxmax, List.get_eq_getElem] using hw
  · intro j hj hcontra
    have hfalse := List.not_of_lt_findIdx (p := fun x => x = seriesMax l) hj
    rw [List.get_eq_getElem] at hcontra
    simp [hcontra] at hfalse

theorem values_get (rows : List Row) (i : Fin (values rows).length) :
    (values rows).get i = (rows.get ⟨i.1, by simpa [values] using i.2⟩).value := by
  rcases i with ⟨i, hi⟩
  simp [values]

theorem map_quarter_getD (rows : List Row) (i : Nat) (hi : i < rows.length) :
    (rows.map Row.quarter).getD i "" = (rows.get ⟨i, hi⟩).quarter := by
  rw [List.getD_eq_getElem _ _ (by simpa using hi)]
  simp [List.get_eq_getElem]

/-- C6: over every non-empty shaped series, the latest statistic is the
last row's value, the mean times the row count is the sum of the
values, and the minimum (resp. maximum) statistic is attained at a row
whose quarter is the reported one, is a lower (resp. upper) bound for
all rows, and is attained at no earlier row — the first occurrence wins
on ties. -/
theorem keyStats_spec (rows : List Row) (t u : String) (h : rows ≠ []) :
    (keyStats ⟨rows, t, u⟩).latestValue = (rows.getLast h).value ∧
    (keyStats ⟨rows, t, u⟩).meanValue * rows.length = (values rows).sum ∧
    (∃ i : Fin rows.length,
        (rows.get i).value = (keyStats ⟨rows, t, u⟩).minValue ∧
        (keyStats ⟨rows, t, u⟩).minQuarter = (rows.get i).quarter ∧
        (∀ r ∈ rows, (keyStats ⟨rows, t, u⟩).minValue ≤ r.value) ∧
        (∀ j : Fin rows.length, j.1 < i.1 →
            (keyStats ⟨rows, t, u⟩).minValue < (rows.get j).value)) ∧
    (∃ i : Fin rows.length,
        (rows.get i).value = (keyStats ⟨rows, t, u⟩).maxValue ∧
        (keyStats ⟨rows, t, u⟩).maxQuarter = (rows.get i).quarter ∧
        (∀ r ∈ rows, r.value ≤ (keyStats ⟨rows, t, u⟩).maxValue) ∧
        (∀ j : Fin rows.length, j.1 < i.1 →
            (rows.get j).value < (keyStats ⟨rows, t, u⟩).maxValue)) := by
  have hv : values rows ≠ [] := by
    simpa [values, List.map_eq_nil_iff] using h
  have hvlen : (values rows).length = rows.length := values_length rows
  simp only [keyStats]
  refine ⟨values_getLastI rows h, ?_, ?_, ?_⟩
  · rw [seriesMean, hvlen]
    exact div_mul_cancel₀ _ (by exact_mod_cast (List.length_pos.mpr h).ne')
  · have hlt := idxmin_lt_length (values rows) hv
    have hlt' : idxmin (values rows) < rows.length := hvlen ▸ hlt
    refine ⟨⟨idxmin (values rows), hlt'⟩, ?_, ?_, ?_, ?_⟩
    · have hspec := (idxmin_spec (values rows) hv).1
      rw [values_get rows ⟨idxmin (values rows), hlt⟩] at hspec
      exact hspec
    · exact (map_quarter_getD rows _ hlt').symm ▸
        (map_quarter_getD rows (idxmin (values rows)) hlt')
    · intro r hr
      exact seriesMin_le_of_mem (values rows) r.value (List.mem_map_of_mem Row.value hr)
    · rintro ⟨j, hjlen⟩ hj
      have hb : j < (values rows).length := hvlen ▸ hjlen
      have hne := (idxmin_spec (values rows) hv).2 ⟨j, hb⟩ hj
      have hle := seriesMin_le_of_mem (values rows) ((values rows).get ⟨j, hb⟩)
        (List.get_mem _ _ _)
      have hlt2 := lt_of_le_of_ne hle (Ne.symm hne)
      rwa [values_get rows ⟨j, hb⟩] at hlt2
  · have hlt := idxmax_lt_length (values rows) hv
    have hlt' : idxmax (values rows) < rows.length := hvlen ▸ hlt
    refine ⟨⟨idxmax (values rows), hlt'⟩, ?_, ?_, ?_, ?_⟩
    · have hspec := (idxmax_spec (values rows) hv).1
      rw [values_get rows ⟨idxmax (values rows), hlt⟩] at hspec
      exact hspec
    · exact map_quarter_getD rows (idxmax (values rows)) hlt'
    · intro r hr
      exact seriesMax_ge_of_mem (values rows) r.value (List.mem_map_of_mem Row.value hr)
    · rintro ⟨j, hjlen⟩ hj
      have hb : j < (values rows).length := hvlen ▸ hjlen
      have hne := (idxmax_spec (values rows) hv).2 ⟨j, hb⟩ hj
      have hle := seriesMax_ge_of_mem (values rows) ((values rows).get ⟨j, hb⟩)
        (List.get_mem _ _ _)
      have hlt2 := lt_of_le_of_ne hle hne
      rwa [values_get rows ⟨j, hb⟩] at hlt2

/-- Witness for C6 at a concrete 3-row series with a tie for the
minimum. -/
theorem keyStats_spec_witness :
    (([⟨"A", 2⟩, ⟨"B", 1⟩, ⟨"C", 1⟩] : List Row) ≠ []) ∧
    ((keyStats ⟨[⟨"A", 2⟩, ⟨"B", 1⟩, ⟨"C", 1⟩], "T", "U"⟩).latestValue =
      (([⟨"A", 2⟩, ⟨"B", 1⟩, ⟨"C", 1⟩] : List Row).getLast (by decide)).value ∧
    (keyStats ⟨[⟨"A", 2⟩, ⟨"B", 1⟩, ⟨"C", 1⟩], "T", "U"⟩).meanValue *
        ([⟨"A", 2⟩, ⟨"B", 1⟩, ⟨"C", 1⟩] : List Row).length =
      (values [⟨"A", 2⟩, ⟨"B", 1⟩, ⟨"C", 1⟩]).sum ∧
    (∃ i : Fin ([⟨"A", 2⟩, ⟨"B", 1⟩, ⟨"C", 1⟩] : List Row).length,
        (([⟨"A", 2⟩, ⟨"B", 1⟩, ⟨"C", 1⟩] : List Row).get i).value =
          (keyStats ⟨[⟨"A", 2⟩, ⟨"B", 1⟩, ⟨"C", 1⟩], "T", "U"⟩).minValue ∧
        (keyStats ⟨[⟨"A", 2⟩, ⟨"B", 1⟩, ⟨"C", 1⟩], "T", "U"⟩).minQuarter =
          (([⟨"A", 2⟩, ⟨"B", 1⟩, ⟨"C", 1⟩] : List Row).get i).quarter ∧
        (∀ r ∈ ([⟨"A", 2⟩, ⟨"B", 1⟩, ⟨"C", 1⟩] : List Row),
          (keyStats ⟨[⟨"A", 2⟩, ⟨"B", 1⟩, ⟨"C", 1⟩], "T", "U"⟩).minValue ≤ r.value) ∧
        (∀ j : Fin ([⟨"A", 2⟩, ⟨"B", 1⟩, ⟨"C", 1⟩] : List Row).length, j.1 < i.1 →
            (keyStats ⟨[⟨"A", 2⟩, ⟨"B", 1⟩, ⟨"C", 1⟩], "T", "U"⟩).minValue <
              (([⟨"A", 2⟩, ⟨"B", 1⟩, ⟨"C", 1⟩] : List Row).get j).value)) ∧
    (∃ i : Fin ([⟨"A", 2⟩, ⟨"B", 1⟩, ⟨"C", 1⟩] : List Row).length,
        (([⟨"A", 2⟩, ⟨"B", 1⟩, ⟨"C", 1⟩] : List Row).get i).value =
          (keyStats ⟨[⟨"A", 2⟩, ⟨"B", 1⟩, ⟨"C", 1⟩], "T", "U"⟩).maxValue ∧
        (keyStats ⟨[⟨"A", 2⟩, ⟨"B", 1⟩, ⟨"C", 1⟩], "T", "U"⟩).maxQuarter =
          (([⟨"A", 2⟩, ⟨"B", 1⟩, ⟨"C", 1⟩] : List Row).get i).quarter ∧
        (∀ r ∈ ([⟨"A", 2⟩, ⟨"B", 1⟩, ⟨"C", 1⟩] : List Row),
          r.value ≤ (keyStats ⟨[⟨"A", 2⟩, ⟨"B", 1⟩, ⟨"C", 1⟩], "T", "U"⟩).maxValue) ∧
        (∀ j : Fin ([⟨"A", 2⟩, ⟨"B", 1⟩, ⟨"C", 1⟩] : List Row).length, j.1 < i.1 →
            (([⟨"A", 2⟩, ⟨"B", 1⟩, ⟨"C", 1⟩] : List Row).get j).value <
              (keyStats ⟨[⟨"A", 2⟩, ⟨"B", 1⟩, ⟨"C", 1⟩], "T", "U"⟩).maxValue))) :=
  ⟨by decide, keyStats_spec [⟨"A", 2⟩, ⟨"B", 1⟩, ⟨"C", 1⟩] "T" "U" (by decide)⟩

/-- C8: on the scenario's 8-point unemployment series the statistics
are latest 3.6, minimum 3.5, maximum 4.0, mean 3.725, and percent
change `(3.6 - 3.5) / 3.5 * 100 = 20/7 ≈ 2.857`. -/
theorem unrate_scenario_stats :
    (keyStats ⟨unrateRows, "Unemployment Rate", "Percent"⟩).latestValue = 3.6 ∧
    (keyStats ⟨unrateRows, "Unemployment Rate", "Percent"⟩).minValue = 3.5 ∧
    (keyStats ⟨unrateRows, "Unemployment Rate", "Percent"⟩).maxValue = 4.0 ∧
    (keyStats ⟨unrateRows, "Unemployment Rate", "Percent"⟩).meanValue = 3.725 ∧
    (keyStats ⟨unrateRows, "Unemployment Rate", "Percent"⟩).pctChange =
      some (.finite ((3.6 - 3.5) / 3.5 * 100)) ∧
    ((3.6 - 3.5) / 3.5 * 100 : ℚ) = 20 / 7 ∧
    (2.857 : ℚ) < (3.6 - 3.5) / 3.5 * 100 ∧
    ((3.6 - 3.5) / 3.5 * 100 : ℚ) < 2.858 := by
  refine ⟨?_, ?_, ?_, ?_, ?_, ?_, ?_, ?_⟩ <;>
    norm_num [keyStats, unrateRows, values, seriesMin, seriesMax, seriesMean,
      calculate_change, npDiv, npMul100, List.getLastI,
      min_def, max_def]

end FredDashboard
